import Mathlib

/-!
Verification of the GBC occult-metastasis risk assessor (`app.py`).

The application collects four patient parameters through form widgets,
encodes them into a fixed-order feature vector, feeds the vector to an
externally trained classifier, compares the positive-class probability to a
constant threshold, and optionally renders a SHAP explanation.  Floats are
modelled as exact rationals, the Python dict `t_code_map` as an association
list, the classifier as an opaque function parameter, and a script run as a
value of `Except` (an uncaught exception or `st.stop` halts the script).
-/

namespace GBCApp

/-- Risk labels produced by the threshold comparison (app.py lines 111-123). -/
inductive Risk
  | HIGH_RISK
  | LOW_RISK
  deriving DecidableEq, Repr

/-- Encoding of the sex selection (app.py line 87):
`sex_code = 1 if sex == "Male" else 0`. -/
def sex_code (sex : String) : Nat :=
  if sex = "Male" then 1 else 0

/-- The dict `t_code_map = {"T1": 1, "T2": 2, "T3": 3, "T4": 4}`
(app.py line 88), as an association list. -/
def t_code_map : List (String × Nat) :=
  [("T1", 1), ("T2", 2), ("T3", 3), ("T4", 4)]

/-- Encoding of the T-stage selection (app.py line 89):
`t_code = t_code_map[t_stage]`.  A key miss is a Python `KeyError`,
modelled as `none`. -/
def t_code (t_stage : String) : Option Nat :=
  t_code_map.lookup t_stage

/-- Column names of the model input (app.py line 92):
`feature_names = ['Age_Numeric', 'Sex_Code', 'T_Code', 'LNR']`. -/
def feature_names : List String :=
  ["Age_Numeric", "Sex_Code", "T_Code", "LNR"]

/-- The single-row DataFrame `input_data` (app.py line 93): column names
paired with the row `[age, sex_code, t_code, lnr]`.  `none` models the
`KeyError` raised by the `t_code_map` lookup on an unknown T label. -/
def input_row (age : ℤ) (sex : String) (t_stage : String) (lnr : ℚ) :
    Option (List String × List ℚ) :=
  (t_code t_stage).map fun tc =>
    (feature_names, [(age : ℚ), (sex_code sex : ℚ), (tc : ℚ), lnr])

/-- The high-risk threshold (app.py line 99): `OPTIMAL_THRESHOLD = 0.546`. -/
def OPTIMAL_THRESHOLD : ℚ := 546 / 1000

/-- The threshold rule (app.py line 111): `if prob >= OPTIMAL_THRESHOLD`
the high-risk branch runs, otherwise the low-risk branch. -/
def riskLabel (prob : ℚ) : Risk :=
  if prob ≥ OPTIMAL_THRESHOLD then Risk.HIGH_RISK else Risk.LOW_RISK

/-- Round to the nearest integer, ties to even: the rounding used by
Python `format` with an `f` presentation type. -/
def roundHalfEven (x : ℚ) : ℤ :=
  if x - Int.floor x < 1 / 2 then Int.floor x
  else if 1 / 2 < x - Int.floor x then Int.floor x + 1
  else if Int.floor x % 2 = 0 then Int.floor x else Int.floor x + 1

/-- Render an integer count of tenths as a decimal string with one digit
after the point. -/
def intRender1 (n : ℤ) : String :=
  (if n < 0 then "-" else "") ++
    toString (n.natAbs / 10) ++ "." ++ toString (n.natAbs % 10)

/-- Python `f"{x:.1f}"`: the value rounded (half to even) to one decimal
digit, rendered with exactly one digit after the point. -/
def format1f (x : ℚ) : String :=
  intRender1 (roundHalfEven (10 * x))

/-- The displayed probability percentage (app.py lines 112 and 119):
`f"{prob * 100:.1f}%"`. -/
def formatPct (prob : ℚ) : String :=
  format1f (prob * 100) ++ "%"

/-- Rounding a rational that is exactly an integer returns that integer. -/
theorem roundHalfEven_intCast (n : ℤ) : roundHalfEven (n : ℚ) = n := by
  unfold roundHalfEven
  rw [Int.floor_intCast]
  norm_num

/-- Evaluation rule for `formatPct` when the tenths count is exact. -/
theorem formatPct_eq_of (p : ℚ) (n : ℤ) (h : 10 * (p * 100) = (n : ℚ)) :
    formatPct p = intRender1 n ++ "%" := by
  simp only [formatPct, format1f, h, roundHalfEven_intCast]

/-- Contents of the SHAP pane (app.py lines 128-148): either the
rendered waterfall figure (opaque token) or, when the try block raised,
the `st.error` message of line 148. -/
inductive ShapPane
  | plot (fig : Nat)
  | errorMsg (msg : String)
  deriving DecidableEq, Repr

/-- The try/except around the SHAP computation (app.py lines 133-148):
a successful explanation shows the figure, any exception `e` is caught
and replaced by `st.error(f"Error generating SHAP plot: {e}")`. -/
def shapDisplay (outcome : Except String Nat) : ShapPane :=
  match outcome with
  | .ok fig => ShapPane.plot fig
  | .error e => ShapPane.errorMsg ("Error generating SHAP plot: " ++ e)

/-- What one full run of the script renders: the risk result of col1
(probability, label, displayed percentage string), the SHAP pane of
col2, and whether the welcome message of line 152 is shown. -/
structure RunOutput where
  result : Option (ℚ × Risk × String)
  explanation : Option ShapPane
  welcome : Bool
  deriving DecidableEq, Repr

/-- Ways a script run terminates early: `st.stop` after `st.error`
(app.py line 38), an uncaught exception from `joblib.load`, or the
KeyError from the `t_code_map` lookup. -/
inductive ScriptHalt
  | stopped (msg : String)
  | unhandled (exc : String)
  | keyError (key : String)
  deriving DecidableEq, Repr

/-- State of the model artifact file GBC_LNR_XGB_Model.pkl: present and
loadable (the loaded classifier is the opaque probability function),
missing, or corrupt/incompatible (`joblib.load` raises `exc`). -/
inductive Artifact
  | present (m : List String × List ℚ → ℚ)
  | missing
  | corrupt (exc : String)

/-- The `st.error` message shown when the model file is missing
(app.py line 37, quotation marks elided). -/
def missing_msg : String :=
  "Error: Model file GBC_LNR_XGB_Model.pkl not found. Please ensure it is in the same directory as app.py."

/-- `load_model` (app.py lines 31-38): `joblib.load` wrapped in a
try/except that catches only FileNotFoundError, reports `st.error` and
calls `st.stop`; any other load exception propagates uncaught.  Either
way a failing load halts the script. -/
def load_model : Artifact → Except ScriptHalt (List String × List ℚ → ℚ)
  | .present m => .ok m
  | .missing => .error (.stopped missing_msg)
  | .corrupt exc => .error (.unhandled exc)

/-- The widget state read by one script run: the four sidebar values and
whether `st.sidebar.button` returned True on this run (app.py
lines 60-81). -/
structure AppInputs where
  age : ℤ
  sex : String
  t_stage : String
  lnr : ℚ
  predict_btn : Bool

/-- The col1 result computed under `if predict_btn:` (app.py
lines 103-123): `prob = model.predict_proba(input_data)[0][1]`, the
threshold label, and the displayed percentage string. -/
def predicted (m : List String × List ℚ → ℚ) (df : List String × List ℚ) :
    ℚ × Risk × String :=
  (m df, riskLabel (m df), formatPct (m df))

/-- One top-to-bottom run of app.py: load the model (halting on
failure), build `input_data` (halting on a KeyError), then — only when
`predict_btn` is True — predict, classify and render the SHAP pane;
otherwise show the welcome message of line 152. -/
def runScript (art : Artifact) (inp : AppInputs)
    (shapOutcome : Except String Nat) : Except ScriptHalt RunOutput :=
  match load_model art with
  | .error e => .error e
  | .ok model =>
    match input_row inp.age inp.sex inp.t_stage inp.lnr with
    | none => .error (.keyError inp.t_stage)
    | some df =>
      if inp.predict_btn then
        .ok ⟨some (predicted model df), some (shapDisplay shapOutcome), false⟩
      else
        .ok ⟨none, none, true⟩

/-- A user action on the page.  Under the Streamlit execution model,
every widget interaction triggers a fresh synchronous top-to-bottom run
of the script, and `st.button` returns True only on the run immediately
following its click; on any other interaction (slider move, selectbox or
number change) it returns False. -/
inductive Interaction
  | sliderMove (age : ℤ) (sex : String) (t_stage : String) (lnr : ℚ)
  | buttonClick (age : ℤ) (sex : String) (t_stage : String) (lnr : ℚ)

/-- The script run triggered by one interaction: a full re-run with
`predict_btn` False for a widget change and True for the button click. -/
def rerun (art : Artifact) (i : Interaction)
    (shapOutcome : Except String Nat) : Except ScriptHalt RunOutput :=
  match i with
  | .sliderMove a s t l => runScript art ⟨a, s, t, l, false⟩ shapOutcome
  | .buttonClick a s t l => runScript art ⟨a, s, t, l, true⟩ shapOutcome

/-- A session: the artifact is loaded once per process by
`st.cache_resource` (app.py line 30) and never mutated, so every rerun
sees the same artifact; each interaction in the trace triggers one
script run. -/
def runSession (art : Artifact)
    (trace : List (Interaction × Except String Nat)) :
    List (Except ScriptHalt RunOutput) :=
  trace.map fun p => rerun art p.1 p.2

/-- The age widget (app.py line 60): `st.sidebar.number_input` with
`min_value=18, max_value=100, step=1` keeps the returned value inside
the declared range, modelled as clamping the raw entry. -/
def age_widget (raw : ℤ) : ℤ := max 18 (min 100 raw)

/-- Options of the sex selectbox (app.py line 63). -/
def sex_options : List String := ["Female", "Male"]

/-- The sex widget: `st.sidebar.selectbox` returns one of its options,
here indexed by the selection. -/
def sex_widget (ix : Nat) : String := sex_options.getD (ix % 2) "Female"

/-- Options of the T-stage selectbox (app.py line 66). -/
def t_options : List String := ["T1", "T2", "T3", "T4"]

/-- The T-stage widget: `st.sidebar.selectbox` returns one of its
options, here indexed by the selection. -/
def t_widget (ix : Nat) : String := t_options.getD (ix % 4) "T1"

/-- The LNR widget (app.py lines 71-78): `st.sidebar.slider` with
`min_value=0.0, max_value=1.0, step=0.01` returns one of the 101 step
positions, modelled by the step count clamped to 100. -/
def lnr_widget (steps : Nat) : ℚ := (min steps 100 : Nat) / 100

/-- C1: for every valid input (age in 18..100, sex in {Female, Male},
T label in {T1..T4}, lnr in [0,1]) the encoder produces the ordered
4-field vector with exactly the column names Age_Numeric, Sex_Code,
T_Code, LNR in that order, Age_Numeric = age, Sex_Code = 1 for Male and
0 for Female, T_Code the numeral of the T label, and LNR = lnr. -/
theorem C1_encoder_table (age : ℤ) (sex t_label : String) (lnr : ℚ)
    (hage : 18 ≤ age ∧ age ≤ 100)
    (hsex : sex = "Female" ∨ sex = "Male")
    (ht : t_label = "T1" ∨ t_label = "T2" ∨ t_label = "T3" ∨ t_label = "T4")
    (hlnr : 0 ≤ lnr ∧ lnr ≤ 1) :
    input_row age sex t_label lnr =
      some (["Age_Numeric", "Sex_Code", "T_Code", "LNR"],
        [(age : ℚ),
         (if sex = "Male" then 1 else 0),
         (if t_label = "T1" then 1 else if t_label = "T2" then 2
          else if t_label = "T3" then 3 else 4),
         lnr]) := by
  rcases ht with rfl | rfl | rfl | rfl <;>
    rcases hsex with rfl | rfl <;>
      simp [input_row, t_code, t_code_map, sex_code, feature_names, List.lookup]

/-- Witness for C1 at age 65, Male, T3, lnr 1/2. -/
theorem C1_encoder_table_witness :
    input_row 65 "Male" "T3" (1 / 2) =
      some (["Age_Numeric", "Sex_Code", "T_Code", "LNR"],
        [(65 : ℚ), 1, 3, 1 / 2]) := by
  simpa using
    C1_encoder_table 65 "Male" "T3" (1 / 2)
      ⟨by norm_num, by norm_num⟩ (Or.inr rfl)
      (Or.inr (Or.inr (Or.inl rfl))) ⟨by norm_num, by norm_num⟩

/-- C2: for every probability p in [0,1], the label is HIGH_RISK iff
p ≥ 0.546 and LOW_RISK iff p < 0.546; the boundary p = 0.546 itself is
classified HIGH_RISK. -/
theorem C2_threshold_rule (p : ℚ) (h0 : 0 ≤ p) (h1 : p ≤ 1) :
    (riskLabel p = Risk.HIGH_RISK ↔ OPTIMAL_THRESHOLD ≤ p) ∧
    (riskLabel p = Risk.LOW_RISK ↔ p < OPTIMAL_THRESHOLD) ∧
    riskLabel OPTIMAL_THRESHOLD = Risk.HIGH_RISK := by
  refine ⟨?_, ?_, by simp [riskLabel]⟩
  · unfold riskLabel
    split <;> rename_i hs
    · simp [ge_iff_le.mp hs]
    · rw [ge_iff_le, not_le] at hs
      simp [not_le.mpr hs]
  · unfold riskLabel
    split <;> rename_i hs
    · rw [ge_iff_le] at hs
      simp [not_lt.mpr hs]
    · rw [ge_iff_le, not_le] at hs
      simp [hs]

/-- Witness for C2 at the boundary probability 0.546. -/
theorem C2_threshold_rule_witness :
    (riskLabel (546 / 1000) = Risk.HIGH_RISK ↔
        OPTIMAL_THRESHOLD ≤ 546 / 1000) ∧
    (riskLabel (546 / 1000) = Risk.LOW_RISK ↔
        (546 / 1000 : ℚ) < OPTIMAL_THRESHOLD) ∧
    riskLabel OPTIMAL_THRESHOLD = Risk.HIGH_RISK :=
  C2_threshold_rule (546 / 1000) (by norm_num) (by norm_num)

/-- C3 counterexample: the scenario displays the probability with ONE
decimal digit (the format spec in app.py lines 112 and 119 is `.1f`), so
the displayed string for p = 0.30 is "30.0%", not "30.00%". -/
theorem C3_scenario_counterexample :
    formatPct (30 / 100) = "30.0%" ∧ formatPct (30 / 100) ≠ "30.00%" ∧
    formatPct (60 / 100) = "60.0%" ∧ formatPct (60 / 100) ≠ "60.00%" := by
  have h30 : formatPct (30 / 100) = intRender1 300 ++ "%" :=
    formatPct_eq_of (30 / 100) 300 (by norm_num)
  have h60 : formatPct (60 / 100) = intRender1 600 ++ "%" :=
    formatPct_eq_of (60 / 100) 600 (by norm_num)
  rw [h30, h60]
  refine ⟨?_, ?_, ?_, ?_⟩ <;> decide

/-- C3 amended: for age 65, Female, T2, lnr 0.10 the encoded vector is
(65, 0, 2, 0.10); a classifier probability of 0.30 yields LOW_RISK with
displayed string "30.0%", and 0.60 yields HIGH_RISK with displayed
string "60.0%". -/
theorem C3_scenario :
    input_row 65 "Female" "T2" (10 / 100) =
      some (["Age_Numeric", "Sex_Code", "T_Code", "LNR"],
        [(65 : ℚ), 0, 2, 10 / 100]) ∧
    riskLabel (30 / 100) = Risk.LOW_RISK ∧ formatPct (30 / 100) = "30.0%" ∧
    riskLabel (60 / 100) = Risk.HIGH_RISK ∧ formatPct (60 / 100) = "60.0%" := by
  refine ⟨?_, ?_, ?_, ?_, ?_⟩
  · simp [input_row, t_code, t_code_map, List.lookup, feature_names, sex_code]
  · unfold riskLabel OPTIMAL_THRESHOLD
    rw [if_neg (by norm_num)]
  · rw [formatPct_eq_of (30 / 100) 300 (by norm_num)]
    decide
  · unfold riskLabel OPTIMAL_THRESHOLD
    rw [if_pos (by norm_num)]
  · rw [formatPct_eq_of (60 / 100) 600 (by norm_num)]
    decide

/-- C9: any T label outside T1..T4 makes the encoding step fail with a
lookup miss (the Python KeyError on t_code_map), while age and lnr
values are placed into the feature vector unchanged, with no range
check and no error, whenever the T label is valid. -/
theorem C9_tcode_keyerror (t_label : String)
    (h1 : t_label ≠ "T1") (h2 : t_label ≠ "T2")
    (h3 : t_label ≠ "T3") (h4 : t_label ≠ "T4")
    (age : ℤ) (sex : String) (lnr : ℚ) :
    (t_code t_label = none ∧ input_row age sex t_label lnr = none) ∧
    ∀ t2 tc, t_code t2 = some tc →
      input_row age sex t2 lnr =
        some (feature_names, [(age : ℚ), (sex_code sex : ℚ), (tc : ℚ), lnr]) := by
  have hnone : t_code t_label = none := by
    have b1 : (t_label == "T1") = false := beq_eq_false_iff_ne.mpr h1
    have b2 : (t_label == "T2") = false := beq_eq_false_iff_ne.mpr h2
    have b3 : (t_label == "T3") = false := beq_eq_false_iff_ne.mpr h3
    have b4 : (t_label == "T4") = false := beq_eq_false_iff_ne.mpr h4
    simp [t_code, t_code_map, List.lookup, b1, b2, b3, b4]
  refine ⟨⟨hnone, by simp [input_row, hnone]⟩, ?_⟩
  intro t2 tc h
  simp [input_row, h]

/-- Witness for C9 at the unknown label T9 and out-of-range age 150 and
lnr 2: the lookup fails for T9, and for the valid label T1 the
out-of-range age and lnr pass through unchanged. -/
theorem C9_tcode_keyerror_witness :
    (t_code "T9" = none ∧ input_row 150 "Male" "T9" 2 = none) ∧
    input_row 150 "Male" "T1" 2 = some (feature_names, [(150 : ℚ), 1, 1, 2]) := by
  have h := C9_tcode_keyerror "T9" (by decide) (by decide) (by decide) (by decide)
    150 "Male" 2
  exact ⟨h.1, by simpa [sex_code] using h.2 "T1" 1 (by decide)⟩

/-- C10: Sex_Code is 1 exactly when the sex label is the string Male;
every other string, including case variants and abbreviations, encodes
to 0 rather than failing. -/
theorem C10_sex_code_total (s : String) :
    (sex_code s = 1 ↔ s = "Male") ∧ (sex_code s = 0 ↔ ¬s = "Male") := by
  unfold sex_code
  split <;> rename_i hs <;> simp_all

/-- Witness for C10: the case variant male and the abbreviation M encode
to 0, and Male encodes to 1. -/
theorem C10_sex_code_total_witness :
    sex_code "male" = 0 ∧ sex_code "M" = 0 ∧ sex_code "Male" = 1 :=
  ⟨(C10_sex_code_total "male").2.mpr (by decide),
   (C10_sex_code_total "M").2.mpr (by decide),
   (C10_sex_code_total "Male").1.mpr rfl⟩

/-- C4: a missing, corrupt or incompatible model artifact makes the
script halt during loading: an error reaches the user (the `st.error`
message, or the uncaught exception Streamlit displays), no inference is
attempted, and no run with a failing artifact ever renders an output. -/
theorem C4_model_load_fatal (inp : AppInputs) (ex : Except String Nat)
    (exc : String) :
    runScript Artifact.missing inp ex =
      Except.error (ScriptHalt.stopped missing_msg) ∧
    runScript (Artifact.corrupt exc) inp ex =
      Except.error (ScriptHalt.unhandled exc) ∧
    (∀ out : RunOutput, runScript Artifact.missing inp ex ≠ Except.ok out) ∧
    (∀ out : RunOutput, runScript (Artifact.corrupt exc) inp ex ≠ Except.ok out) := by
  refine ⟨rfl, rfl, ?_, ?_⟩ <;> intro out h <;> exact Except.noConfusion h

/-- Witness for C4 at a concrete widget state and load exception. -/
theorem C4_model_load_fatal_witness :
    runScript Artifact.missing ⟨65, "Female", "T2", 10 / 100, true⟩ (.ok 0) =
      Except.error (ScriptHalt.stopped missing_msg) ∧
    runScript (Artifact.corrupt "bad pickle") ⟨65, "Female", "T2", 10 / 100, true⟩
        (.ok 0) =
      Except.error (ScriptHalt.unhandled "bad pickle") ∧
    runScript Artifact.missing ⟨65, "Female", "T2", 10 / 100, true⟩ (.ok 0) ≠
      Except.ok ⟨none, none, true⟩ ∧
    runScript (Artifact.corrupt "bad pickle") ⟨65, "Female", "T2", 10 / 100, true⟩
        (.ok 0) ≠
      Except.ok ⟨none, none, true⟩ := by
  have h := C4_model_load_fatal ⟨65, "Female", "T2", 10 / 100, true⟩ (.ok 0)
    "bad pickle"
  exact ⟨h.1, h.2.1, h.2.2.1 _, h.2.2.2 _⟩

/-- C5: when the SHAP try block raises, the failure is recoverable: the
probability, label and displayed string of col1 are exactly the same as
on a successful explanation run, and only the SHAP pane is replaced by
the error message. -/
theorem C5_shap_failure_recoverable (m : List String × List ℚ → ℚ)
    (inp : AppInputs) (tc : Nat) (ht : t_code inp.t_stage = some tc)
    (hbtn : inp.predict_btn = true) (err : String) (fig : Nat) :
    runScript (.present m) inp (.error err) =
      Except.ok ⟨some (predicted m (feature_names,
          [(inp.age : ℚ), (sex_code inp.sex : ℚ), (tc : ℚ), inp.lnr])),
        some (.errorMsg ("Error generating SHAP plot: " ++ err)), false⟩ ∧
    runScript (.present m) inp (.ok fig) =
      Except.ok ⟨some (predicted m (feature_names,
          [(inp.age : ℚ), (sex_code inp.sex : ℚ), (tc : ℚ), inp.lnr])),
        some (.plot fig), false⟩ := by
  constructor <;>
    simp [runScript, load_model, input_row, ht, hbtn, shapDisplay]

/-- Witness for C5 at a concrete classifier, widget state, exception
message and figure. -/
theorem C5_shap_failure_recoverable_witness :
    runScript (.present fun _ => 7 / 10) ⟨65, "Female", "T2", 10 / 100, true⟩
        (.error "boom") =
      Except.ok ⟨some (predicted (fun _ => 7 / 10) (feature_names,
          [(65 : ℚ), (sex_code "Female" : ℚ), ((2 : Nat) : ℚ), 10 / 100])),
        some (.errorMsg ("Error generating SHAP plot: " ++ "boom")), false⟩ ∧
    runScript (.present fun _ => 7 / 10) ⟨65, "Female", "T2", 10 / 100, true⟩
        (.ok 3) =
      Except.ok ⟨some (predicted (fun _ => 7 / 10) (feature_names,
          [(65 : ℚ), (sex_code "Female" : ℚ), ((2 : Nat) : ℚ), 10 / 100])),
        some (.plot 3), false⟩ :=
  C5_shap_failure_recoverable (fun _ => 7 / 10)
    ⟨65, "Female", "T2", 10 / 100, true⟩ 2 (by decide) rfl "boom" 3

/-- C6: with the artifact unchanged across a session, any two identical
interactions in a trace produce identical script outputs — in
particular an identical probability and risk label. -/
theorem C6_session_deterministic (art : Artifact)
    (trace : List (Interaction × Except String Nat)) (i j : Nat)
    (hi : i < trace.length) (hj : j < trace.length)
    (h : trace.get ⟨i, hi⟩ = trace.get ⟨j, hj⟩) :
    (runSession art trace).get ⟨i, by simpa [runSession] using hi⟩ =
    (runSession art trace).get ⟨j, by simpa [runSession] using hj⟩ := by
  have hrw : ∀ (k : Nat) (hk : k < trace.length),
      (runSession art trace).get ⟨k, by simpa [runSession] using hk⟩ =
        rerun art (trace.get ⟨k, hk⟩).1 (trace.get ⟨k, hk⟩).2 := by
    intro k hk
    simp [runSession]
  rw [hrw i hi, hrw j hj, h]

/-- Witness for C6: a three-interaction trace whose first and third
entries are identical button clicks yields equal first and third
outputs. -/
theorem C6_session_deterministic_witness :
    (runSession (.present fun _ => 3 / 5)
        [(.buttonClick 65 "Female" "T2" (10 / 100), .ok 1),
         (.sliderMove 40 "Male" "T4" (1 / 2), .ok 2),
         (.buttonClick 65 "Female" "T2" (10 / 100), .ok 1)]).get
      ⟨0, by norm_num [runSession]⟩ =
    (runSession (.present fun _ => 3 / 5)
        [(.buttonClick 65 "Female" "T2" (10 / 100), .ok 1),
         (.sliderMove 40 "Male" "T4" (1 / 2), .ok 2),
         (.buttonClick 65 "Female" "T2" (10 / 100), .ok 1)]).get
      ⟨2, by norm_num [runSession]⟩ :=
  C6_session_deterministic _ _ 0 2 (by norm_num) (by norm_num) rfl

/-- C7: every widget state leads to a feature vector inside the declared
domains with no validation code: age in 18..100, Sex_Code in {0,1},
T_Code in {1,2,3,4}, LNR in [0,1]. -/
theorem C7_widget_domains (raw : ℤ) (six tix steps : Nat) :
    ∃ tc : Nat,
      input_row (age_widget raw) (sex_widget six) (t_widget tix)
          (lnr_widget steps) =
        some (feature_names,
          [(age_widget raw : ℚ), (sex_code (sex_widget six) : ℚ), (tc : ℚ),
           lnr_widget steps]) ∧
      18 ≤ age_widget raw ∧ age_widget raw ≤ 100 ∧
      (sex_code (sex_widget six) = 0 ∨ sex_code (sex_widget six) = 1) ∧
      1 ≤ tc ∧ tc ≤ 4 ∧
      0 ≤ lnr_widget steps ∧ lnr_widget steps ≤ 1 := by
  have h2 : six % 2 = 0 ∨ six % 2 = 1 := by omega
  have h4 : tix % 4 = 0 ∨ tix % 4 = 1 ∨ tix % 4 = 2 ∨ tix % 4 = 3 := by omega
  obtain ⟨tc, htc, h1c, h4c⟩ :
      ∃ tc : Nat, t_code (t_widget tix) = some tc ∧ 1 ≤ tc ∧ tc ≤ 4 := by
    rcases h4 with h | h | h | h
    · exact ⟨1, by simp [t_widget, t_options, h, t_code, t_code_map, List.lookup],
        by norm_num, by norm_num⟩
    · exact ⟨2, by simp [t_widget, t_options, h, t_code, t_code_map, List.lookup],
        by norm_num, by norm_num⟩
    · exact ⟨3, by simp [t_widget, t_options, h, t_code, t_code_map, List.lookup],
        by norm_num, by norm_num⟩
    · exact ⟨4, by simp [t_widget, t_options, h, t_code, t_code_map, List.lookup],
        by norm_num, by norm_num⟩
  refine ⟨tc, ?_, ?_, ?_, ?_, h1c, h4c, ?_, ?_⟩
  · simp [input_row, htc]
  · exact le_max_left _ _
  · exact max_le (by norm_num) (min_le_left _ _)
  · rcases h2 with h | h <;> simp [sex_widget, sex_options, h, sex_code]
  · unfold lnr_widget
    positivity
  · unfold lnr_widget
    rw [div_le_one (by norm_num)]
    exact_mod_cast min_le_right steps 100

/-- Witness for C7 at a concrete widget state. -/
theorem C7_widget_domains_witness :
    ∃ tc : Nat,
      input_row (age_widget 65) (sex_widget 1) (t_widget 2)
          (lnr_widget 30) =
        some (feature_names,
          [(age_widget 65 : ℚ), (sex_code (sex_widget 1) : ℚ), (tc : ℚ),
           lnr_widget 30]) ∧
      18 ≤ age_widget 65 ∧ age_widget 65 ≤ 100 ∧
      (sex_code (sex_widget 1) = 0 ∨ sex_code (sex_widget 1) = 1) ∧
      1 ≤ tc ∧ tc ≤ 4 ∧
      0 ≤ lnr_widget 30 ∧ lnr_widget 30 ≤ 1 :=
  C7_widget_domains 65 1 2 30

/-- C8 counterexample: with a loadable model whose probability is 0.9, a
slider-move interaction reruns the script but performs no inference and
no classification (the run renders the welcome message and no result),
while the identical parameters via a button click do produce a result —
so inference does NOT execute on every interaction. -/
theorem C8_slider_no_inference :
    rerun (.present fun _ => 9 / 10) (.sliderMove 65 "Female" "T2" (10 / 100))
        (.ok 0) =
      Except.ok ⟨none, none, true⟩ ∧
    rerun (.present fun _ => 9 / 10) (.buttonClick 65 "Female" "T2" (10 / 100))
        (.ok 0) =
      Except.ok ⟨some (9 / 10, Risk.HIGH_RISK, "90.0%"), some (.plot 0), false⟩ := by
  constructor
  · simp [rerun, runScript, load_model, input_row, t_code, t_code_map,
      List.lookup]
  · have hfmt : formatPct (9 / 10) = "90.0%" := by
      rw [formatPct_eq_of (9 / 10) 900 (by norm_num)]
      decide
    have hlab : riskLabel (9 / 10) = Risk.HIGH_RISK := by
      unfold riskLabel OPTIMAL_THRESHOLD
      rw [if_pos (by norm_num)]
    simp [rerun, runScript, load_model, input_row, t_code, t_code_map,
      List.lookup, predicted, shapDisplay, hfmt, hlab]

/-- C8 amended: every user action triggers a full synchronous rerun of
the script, and the encoding step runs on every rerun; but inference and
classification execute only on the rerun immediately following the
button click — any other interaction renders the welcome message. -/
theorem C8_rerun_guard (m : List String × List ℚ → ℚ) (age : ℤ)
    (sex t_label : String) (lnr : ℚ) (ex : Except String Nat) (tc : Nat)
    (ht : t_code t_label = some tc) :
    rerun (.present m) (.sliderMove age sex t_label lnr) ex =
      Except.ok ⟨none, none, true⟩ ∧
    rerun (.present m) (.buttonClick age sex t_label lnr) ex =
      Except.ok ⟨some (predicted m (feature_names,
          [(age : ℚ), (sex_code sex : ℚ), (tc : ℚ), lnr])),
        some (shapDisplay ex), false⟩ ∧
    ∀ t2, t_code t2 = none →
      rerun (.present m) (.sliderMove age sex t2 lnr) ex =
        Except.error (.keyError t2) := by
  refine ⟨?_, ?_, ?_⟩
  · simp [rerun, runScript, load_model, input_row, ht]
  · simp [rerun, runScript, load_model, input_row, ht]
  · intro t2 h2
    simp [rerun, runScript, load_model, input_row, h2]

/-- Witness for C8 amended at a concrete classifier and widget state,
with the encoding-step conjunct instantiated at the unknown label T9. -/
theorem C8_rerun_guard_witness :
    rerun (.present fun _ => 1 / 2) (.sliderMove 65 "Female" "T2" (10 / 100))
        (.ok 0) =
      Except.ok ⟨none, none, true⟩ ∧
    rerun (.present fun _ => 1 / 2) (.buttonClick 65 "Female" "T2" (10 / 100))
        (.ok 0) =
      Except.ok ⟨some (predicted (fun _ => 1 / 2) (feature_names,
          [(65 : ℚ), (sex_code "Female" : ℚ), ((2 : Nat) : ℚ), 10 / 100])),
        some (shapDisplay (.ok 0)), false⟩ ∧
    rerun (.present fun _ => 1 / 2) (.sliderMove 65 "Female" "T9" (10 / 100))
        (.ok 0) =
      Except.error (.keyError "T9") := by
  have h := C8_rerun_guard (fun _ => 1 / 2) 65 "Female" "T2" (10 / 100) (.ok 0)
    2 (by decide)
  exact ⟨h.1, h.2.1, h.2.2 "T9" (by decide)⟩

end GBCApp
